import Mathlib

/-!
Verification of the bitrate-reduction tool in src/main.rs.

The program probes a video's duration with ffprobe, computes a target video
bitrate from the duration and a target file size, and re-encodes with ffmpeg.
The core arithmetic lives in the Rust function compute_video_bitrate
(src/main.rs lines 48-60); reduce_video (lines 68-109) converts megabytes to
bytes, formats the bitrate string, and invokes the two external tools; main
(lines 111-121) validates the size argument before any external call.

Modelling conventions:
- Rust u64 values are ℕ; u64 multiplication wraps, modelled by `% 2 ^ 64`
  (release-build semantics).
- f64 arithmetic on the values arising here is modelled by exact rational
  arithmetic (ℚ). Every f64 operation in compute_video_bitrate is exact at
  the concrete inputs appearing in the theorems below, and the general
  theorems depend only on order facts preserved by IEEE rounding, which is
  monotone and exact on the branch constants.
- Division by zero, which in f64 yields +∞ (positive numerator) or NaN
  (zero numerator), is modelled by an explicit case split on `duration = 0`:
  the subsequent comparison against 100 000.0 is false for both NaN and +∞,
  and the Rust `as` cast saturates, sending +∞ to u64::MAX and NaN to 0.
- The f64→u64 cast `video_bitrate as u64` truncates toward zero and
  saturates at u64::MAX, modelled by `min (Int.toNat ⌊·⌋) U64_MAX` (it is
  only reached with a value ≥ 100 000, hence nonnegative).
- The two external processes are modelled by an `ExtWorld` describing their
  behaviour, and each run returns, besides its result, the trace of
  external invocations it performed.
-/

namespace Mdviqure

/-- Modulus of Rust u64 arithmetic. -/
def U64_MOD : ℕ := 2 ^ 64

/-- Largest u64 value; the saturating f64→u64 cast caps here. -/
def U64_MAX : ℕ := U64_MOD - 1

/-- The u64 product `target_bytes * 8` from line 50 of src/main.rs, with
u64 wrap-around. -/
def target_bits (target_bytes : ℕ) : ℕ := target_bytes * 8 % U64_MOD

/-- The intermediate `video_bitrate` f64 value of src/main.rs lines 50-52:
`(target_bytes * 8) as f64 / duration - audio_bitrate as f64`, modelled
exactly over ℚ (meaningful only for `duration ≠ 0`). -/
def raw_video_bitrate (duration : ℚ) (target_bytes audio_bitrate : ℕ) : ℚ :=
  (target_bits target_bytes : ℚ) / duration - (audio_bitrate : ℚ)

/-- Embedding of `compute_video_bitrate` (src/main.rs lines 48-60).
For `duration = 0` the f64 division produces NaN (zero numerator; the
saturating cast then yields 0) or +∞ (positive numerator; the cast yields
u64::MAX); both fail the comparison against the 100 000.0 floor. Otherwise
the code clamps the computed value to a floor of 100 000 and truncates the
f64 to u64. -/
def compute_video_bitrate (duration : ℚ) (target_bytes audio_bitrate : ℕ) : ℕ :=
  if duration = 0 then
    if target_bits target_bytes = 0 then 0 else U64_MAX
  else if raw_video_bitrate duration target_bytes audio_bitrate < 100000 then 100000
  else min (Int.toNat ⌊raw_video_bitrate duration target_bytes audio_bitrate⌋) U64_MAX

/-- Conversion of the target size from megabytes to bytes
(`target_mb * 1024 * 1024`, src/main.rs line 72). -/
def target_bytes_of_mb (target_mb : ℕ) : ℕ := target_mb * 1024 * 1024

/-- The fixed audio bitrate assumed by reduce_video (src/main.rs line 74). -/
def audio_bitrate_const : ℕ := 128000

/-- The bitrate string handed to ffmpeg (src/main.rs line 78): the decimal
numeral of `video_bitrate / 1000` followed by a literal k. -/
def video_bitrate_str (video_bitrate : ℕ) : String :=
  Nat.repr (video_bitrate / 1000) ++ "k"

/-- An invocation of one of the two external tools, with the arguments the
claims care about. -/
inductive ExtCall
  | ffprobe (input : String)
  | ffmpeg (input : String) (bitrate : String) (output : String)
deriving DecidableEq

/-- Environment behaviour of the two external processes: the outcome of the
ffprobe duration query (error message, or parsed duration) and whether
ffmpeg exits successfully. -/
structure ExtWorld where
  probe_out : Except String ℚ
  encode_ok : Bool

/-- Embedding of `reduce_video` (src/main.rs lines 68-109): probe the
duration, compute the bitrate from `target_mb * 1024 * 1024` bytes and the
fixed 128 000 bps audio bitrate, then invoke ffmpeg with the formatted
bitrate string. Returns the result together with the trace of external
invocations, in order. -/
def reduce_video (w : ExtWorld) (input output : String) (target_mb : ℕ) :
    Except String Unit × List ExtCall :=
  match w.probe_out with
  | Except.error e => (Except.error e, [ExtCall.ffprobe input])
  | Except.ok duration =>
    let video_bitrate :=
      compute_video_bitrate duration (target_bytes_of_mb target_mb) audio_bitrate_const
    let s := video_bitrate_str video_bitrate
    if w.encode_ok then
      (Except.ok (), [ExtCall.ffprobe input, ExtCall.ffmpeg input s output])
    else
      (Except.error "ffmpeg failed during encoding",
        [ExtCall.ffprobe input, ExtCall.ffmpeg input s output])

/-- Embedding of `main` (src/main.rs lines 111-121): validate the size
argument, then run reduce_video. Returns the result together with the
trace of external invocations. -/
def main_model (w : ExtWorld) (input output : String) (size : ℕ) :
    Except String Unit × List ExtCall :=
  if size ≠ 50 ∧ size ≠ 100 then
    (Except.error "Target size must be either 50 or 100 MB.", [])
  else reduce_video w input output size

/-! Shared helper lemmas. -/

/-- For positive duration the result is at least the 100 000 floor. -/
theorem le_cvb_of_pos (d : ℚ) (t a : ℕ) (hd : 0 < d) :
    100000 ≤ compute_video_bitrate d t a := by
  unfold compute_video_bitrate
  rw [if_neg hd.ne']
  by_cases h : raw_video_bitrate d t a < 100000
  · simp [h]
  · rw [if_neg h]
    push_neg at h
    refine le_min ?_ ?_
    · have hfl : (100000 : ℤ) ≤ ⌊raw_video_bitrate d t a⌋ :=
        Int.le_floor.mpr (by exact_mod_cast h)
      omega
    · norm_num [U64_MAX, U64_MOD]

/-- For negative duration the raw bitrate is nonpositive, so the floor
branch is taken and the result is exactly 100 000. -/
theorem cvb_of_neg (d : ℚ) (t a : ℕ) (hd : d < 0) :
    compute_video_bitrate d t a = 100000 := by
  unfold compute_video_bitrate
  rw [if_neg hd.ne]
  rw [if_pos]
  unfold raw_video_bitrate
  have h1 : (target_bits t : ℚ) / d ≤ 0 :=
    div_nonpos_iff.mpr (Or.inl ⟨by positivity, hd.le⟩)
  have h2 : (0 : ℚ) ≤ (a : ℚ) := by positivity
  linarith

/-- Evaluation of the spec scenario: 100 s video, 100 MB target. -/
theorem cvb_spec_inputs :
    compute_video_bitrate 100 (target_bytes_of_mb 100) audio_bitrate_const = 8260608 := by
  norm_num [compute_video_bitrate, raw_video_bitrate, target_bits, U64_MOD, U64_MAX,
    target_bytes_of_mb, audio_bitrate_const]
  decide

/-! Claim theorems. -/

/-- C1: for every duration > 0 and every target_bytes, with the fixed audio
bitrate of 128 000 bps, compute_video_bitrate returns an integer value of
at least 100 000 (the bitrate floor). -/
theorem cvb_ge_floor (d : ℚ) (t : ℕ) (hd : 0 < d) :
    100000 ≤ compute_video_bitrate d t audio_bitrate_const :=
  le_cvb_of_pos d t audio_bitrate_const hd

/-- Witness for C1 at duration 1, target_bytes 0. -/
theorem cvb_ge_floor_witness :
    (0 : ℚ) < 1 ∧ 100000 ≤ compute_video_bitrate 1 0 audio_bitrate_const :=
  ⟨by norm_num, cvb_ge_floor 1 0 (by norm_num)⟩

/-- C2: for duration 100 s, target 100 MB (converted as megabytes × 1024²)
and audio bitrate 128 000 bps, the result is within 1 000 bps of
8 260 608 bps. -/
theorem cvb_spec_scenario :
    ((compute_video_bitrate 100 (target_bytes_of_mb 100) audio_bitrate_const : ℤ)
      - 8260608).natAbs < 1000 := by
  rw [cvb_spec_inputs]
  decide

/-- C3: for duration 10 000 s, target 50 MB and audio bitrate 128 000 bps,
the raw computed bitrate is negative and the result is exactly the
100 000 bps floor. -/
theorem cvb_floor_applied :
    raw_video_bitrate 10000 (target_bytes_of_mb 50) audio_bitrate_const < 0 ∧
    compute_video_bitrate 10000 (target_bytes_of_mb 50) audio_bitrate_const = 100000 := by
  constructor
  · norm_num [raw_video_bitrate, target_bits, U64_MOD, target_bytes_of_mb,
      audio_bitrate_const]
  · norm_num [compute_video_bitrate, raw_video_bitrate, target_bits, U64_MOD, U64_MAX,
      target_bytes_of_mb, audio_bitrate_const]

/-- Counterexample for C4: at duration 16 s the results for target_bytes
500 000 and 500 001 are both 122 000 (above the floor) — truncation to u64
makes the function non-strictly monotone only; and with u64 wrap-around of
target_bytes * 8 (target_bytes 2⁶⁰ versus 2⁶¹ + 2³⁷, duration 1 s) the
result even decreases while both stay above the floor. -/
theorem cvb_monotone_counterexample :
    ((500000 : ℕ) < 500001 ∧
      100000 < compute_video_bitrate 16 500000 audio_bitrate_const ∧
      100000 < compute_video_bitrate 16 500001 audio_bitrate_const ∧
      ¬ compute_video_bitrate 16 500000 audio_bitrate_const <
          compute_video_bitrate 16 500001 audio_bitrate_const) ∧
    ((2 ^ 60 : ℕ) < 2 ^ 61 + 2 ^ 37 ∧
      100000 < compute_video_bitrate 1 (2 ^ 60) audio_bitrate_const ∧
      100000 < compute_video_bitrate 1 (2 ^ 61 + 2 ^ 37) audio_bitrate_const ∧
      compute_video_bitrate 1 (2 ^ 61 + 2 ^ 37) audio_bitrate_const <
        compute_video_bitrate 1 (2 ^ 60) audio_bitrate_const) := by
  have e1 : compute_video_bitrate 16 500000 audio_bitrate_const = 122000 := by
    norm_num [compute_video_bitrate, raw_video_bitrate, target_bits, U64_MOD, U64_MAX,
      audio_bitrate_const]
    decide
  have e2 : compute_video_bitrate 16 500001 audio_bitrate_const = 122000 := by
    norm_num [compute_video_bitrate, raw_video_bitrate, target_bits, U64_MOD, U64_MAX,
      audio_bitrate_const]
    decide
  have e3 : compute_video_bitrate 1 (2 ^ 60) audio_bitrate_const = 2 ^ 63 - 128000 := by
    norm_num [compute_video_bitrate, raw_video_bitrate, target_bits, U64_MOD, U64_MAX,
      audio_bitrate_const]
    decide
  have e4 : compute_video_bitrate 1 (2 ^ 61 + 2 ^ 37) audio_bitrate_const
      = 2 ^ 40 - 128000 := by
    norm_num [compute_video_bitrate, raw_video_bitrate, target_bits, U64_MOD, U64_MAX,
      audio_bitrate_const]
    decide
  rw [e1, e2, e3, e4]
  norm_num

/-- C4 (amended): holding duration and audio_bitrate fixed, and provided
target_bytes * 8 does not overflow u64, compute_video_bitrate is
monotonically non-decreasing in target_bytes whenever both results are
above the floor (strict growth can be lost to u64 truncation). -/
theorem cvb_monotone_amended (d : ℚ) (t1 t2 a : ℕ)
    (h12 : t1 < t2) (hov : t2 * 8 < U64_MOD)
    (h1 : 100000 < compute_video_bitrate d t1 a)
    (h2 : 100000 < compute_video_bitrate d t2 a) :
    compute_video_bitrate d t1 a ≤ compute_video_bitrate d t2 a := by
  rcases lt_trichotomy d 0 with hd | hd | hd
  · rw [cvb_of_neg d t1 a hd] at h1
    exact absurd h1 (lt_irrefl _)
  · subst hd
    by_cases hz1 : target_bits t1 = 0
    · rw [show compute_video_bitrate 0 t1 a = 0 by
        unfold compute_video_bitrate; rw [if_pos rfl, if_pos hz1]] at h1
      exact absurd h1 (by norm_num)
    · by_cases hz2 : target_bits t2 = 0
      · rw [show compute_video_bitrate 0 t2 a = 0 by
          unfold compute_video_bitrate; rw [if_pos rfl, if_pos hz2]] at h2
        exact absurd h2 (by norm_num)
      · unfold compute_video_bitrate
        rw [if_pos rfl, if_pos rfl, if_neg hz1, if_neg hz2]
  · have e1 : target_bits t1 = t1 * 8 :=
      Nat.mod_eq_of_lt (lt_of_le_of_lt (Nat.mul_le_mul_right 8 h12.le) hov)
    have e2 : target_bits t2 = t2 * 8 := Nat.mod_eq_of_lt hov
    have hmono : raw_video_bitrate d t1 a ≤ raw_video_bitrate d t2 a := by
      unfold raw_video_bitrate
      rw [e1, e2]
      have hle : ((t1 * 8 : ℕ) : ℚ) ≤ ((t2 * 8 : ℕ) : ℚ) := by
        exact_mod_cast Nat.mul_le_mul_right 8 h12.le
      have := (div_le_div_iff_of_pos_right hd).mpr hle
      linarith
    by_cases hb1 : raw_video_bitrate d t1 a < 100000
    · rw [show compute_video_bitrate d t1 a = 100000 by
        unfold compute_video_bitrate; rw [if_neg hd.ne', if_pos hb1]] at h1
      exact absurd h1 (lt_irrefl _)
    · have hb2 : ¬ raw_video_bitrate d t2 a < 100000 := fun hcon =>
        hb1 (lt_of_le_of_lt hmono hcon)
      unfold compute_video_bitrate
      rw [if_neg hd.ne', if_neg hd.ne', if_neg hb1, if_neg hb2]
      exact min_le_min (Int.toNat_le_toNat (Int.floor_le_floor hmono)) le_rfl

/-- Witness for the amended C4 at duration 1, target_bytes 100 000 and
200 000, audio bitrate 0. -/
theorem cvb_monotone_amended_witness :
    ((100000 : ℕ) < 200000 ∧ 200000 * 8 < U64_MOD ∧
      100000 < compute_video_bitrate 1 100000 0 ∧
      100000 < compute_video_bitrate 1 200000 0) ∧
    compute_video_bitrate 1 100000 0 ≤ compute_video_bitrate 1 200000 0 := by
  have e1 : compute_video_bitrate 1 100000 0 = 800000 := by
    norm_num [compute_video_bitrate, raw_video_bitrate, target_bits, U64_MOD, U64_MAX]
    decide
  have e2 : compute_video_bitrate 1 200000 0 = 1600000 := by
    norm_num [compute_video_bitrate, raw_video_bitrate, target_bits, U64_MOD, U64_MAX]
    decide
  refine ⟨⟨by norm_num, by norm_num [U64_MOD], by rw [e1]; norm_num, by rw [e2]; norm_num⟩,
    cvb_monotone_amended 1 100000 200000 0 (by norm_num) (by norm_num [U64_MOD])
      (by rw [e1]; norm_num) (by rw [e2]; norm_num)⟩

/-- C5: the bitrate handed to the encoder is rendered as the decimal integer
of kilobits per second followed by a k: in the spec scenario the computed
bitrate 8 260 608 bps yields the integer 8260, rendered "8260k". -/
theorem cvb_bitrate_rendering :
    compute_video_bitrate 100 (target_bytes_of_mb 100) audio_bitrate_const / 1000 = 8260 ∧
    video_bitrate_str (compute_video_bitrate 100 (target_bytes_of_mb 100) audio_bitrate_const)
      = "8260k" := by
  rw [cvb_spec_inputs]
  constructor
  · decide
  · rfl

/-- C6: any size other than 50 or 100 makes main fail with the invalid-size
error before invoking any external tool. -/
theorem invalid_size_rejected (w : ExtWorld) (inp outp : String) (size : ℕ)
    (h50 : size ≠ 50) (h100 : size ≠ 100) :
    main_model w inp outp size =
      (Except.error "Target size must be either 50 or 100 MB.", []) := by
  unfold main_model
  rw [if_pos ⟨h50, h100⟩]

/-- Witness for C6 at size 42. -/
theorem invalid_size_rejected_witness :
    (42 : ℕ) ≠ 50 ∧ (42 : ℕ) ≠ 100 ∧
    main_model ⟨Except.ok 1, true⟩ "in.mp4" "out.mp4" 42 =
      (Except.error "Target size must be either 50 or 100 MB.", []) :=
  ⟨by decide, by decide,
    invalid_size_rejected ⟨Except.ok 1, true⟩ "in.mp4" "out.mp4" 42 (by decide) (by decide)⟩

/-- C7: compute_video_bitrate is deterministic (equal arguments give equal
results) and has no error path: whenever the raw bitrate falls below the
floor (duration nonzero), the function clamps to 100 000 instead of
signalling an error. -/
theorem cvb_deterministic :
    (∀ (d d' : ℚ) (t t' a a' : ℕ), d = d' → t = t' → a = a' →
      compute_video_bitrate d t a = compute_video_bitrate d' t' a') ∧
    (∀ (d : ℚ) (t a : ℕ), d ≠ 0 → raw_video_bitrate d t a < 100000 →
      compute_video_bitrate d t a = 100000) := by
  constructor
  · rintro d _ t _ a _ rfl rfl rfl
    rfl
  · intro d t a hd h
    unfold compute_video_bitrate
    rw [if_neg hd, if_pos h]

/-- Witness for C7: determinism at one input, clamping at the spec's
too-small scenario. -/
theorem cvb_deterministic_witness :
    compute_video_bitrate 1 2 3 = compute_video_bitrate 1 2 3 ∧
    compute_video_bitrate 10000 (target_bytes_of_mb 50) audio_bitrate_const = 100000 :=
  ⟨cvb_deterministic.1 1 1 2 2 3 3 rfl rfl rfl,
    cvb_deterministic.2 10000 (target_bytes_of_mb 50) audio_bitrate_const (by norm_num)
      (by norm_num [raw_video_bitrate, target_bits, U64_MOD, target_bytes_of_mb,
        audio_bitrate_const])⟩

/-- Counterexample for C8: at duration 0 and target_bytes 0 the f64 division
is 0.0 / 0.0 = NaN, and the saturating cast returns 0, not u64::MAX as the
claim states for duration = 0. -/
theorem cvb_zero_zero_counterexample :
    compute_video_bitrate 0 0 audio_bitrate_const = 0 ∧ (0 : ℕ) ≠ U64_MAX := by
  constructor
  · norm_num [compute_video_bitrate, target_bits, U64_MOD]
  · norm_num [U64_MAX, U64_MOD]

/-- C8 (amended): compute_video_bitrate is total outside the duration > 0
precondition: for negative duration it returns exactly 100 000; for
duration = 0 it returns u64::MAX when the wrapped bit count
target_bytes * 8 is nonzero (division yields +∞), and 0 when that bit
count is zero (division yields NaN, whose saturating cast is 0); it never
panics or signals an error. -/
theorem cvb_total_outside_precondition (d : ℚ) (t a : ℕ) :
    (d < 0 → compute_video_bitrate d t a = 100000) ∧
    (d = 0 → target_bits t ≠ 0 → compute_video_bitrate d t a = U64_MAX) ∧
    (d = 0 → target_bits t = 0 → compute_video_bitrate d t a = 0) := by
  refine ⟨fun hd => cvb_of_neg d t a hd, fun hd hz => ?_, fun hd hz => ?_⟩
  · subst hd
    unfold compute_video_bitrate
    rw [if_pos rfl, if_neg hz]
  · subst hd
    unfold compute_video_bitrate
    rw [if_pos rfl, if_pos hz]

/-- Witness for the amended C8 at durations -1 and 0. -/
theorem cvb_total_outside_precondition_witness :
    compute_video_bitrate (-1) 5 7 = 100000 ∧
    compute_video_bitrate 0 1 7 = U64_MAX ∧
    compute_video_bitrate 0 0 7 = 0 :=
  ⟨(cvb_total_outside_precondition (-1) 5 7).1 (by norm_num),
    (cvb_total_outside_precondition 0 1 7).2.1 rfl (by norm_num [target_bits, U64_MOD]),
    (cvb_total_outside_precondition 0 0 7).2.2 rfl (by norm_num [target_bits, U64_MOD])⟩

/-- C9: for both sizes accepted by the CLI validation, neither the
megabyte-to-byte conversion nor the byte-to-bit conversion overflows u64,
so no arithmetic-overflow panic can occur on a validated run. -/
theorem no_overflow_for_valid_sizes (s : ℕ) (hs : s = 50 ∨ s = 100) :
    target_bytes_of_mb s < U64_MOD ∧ target_bytes_of_mb s * 8 < U64_MOD := by
  rcases hs with rfl | rfl <;> norm_num [target_bytes_of_mb, U64_MOD]

/-- Witness for C9 at size 50. -/
theorem no_overflow_for_valid_sizes_witness :
    ((50 : ℕ) = 50 ∨ (50 : ℕ) = 100) ∧
    (target_bytes_of_mb 50 < U64_MOD ∧ target_bytes_of_mb 50 * 8 < U64_MOD) :=
  ⟨Or.inl rfl, no_overflow_for_valid_sizes 50 (Or.inl rfl)⟩

/-! Decimal-numeral length facts used for C10. -/

/-- Nat.toDigitsCore with positive fuel prepends at least one character to
its accumulator. -/
theorem toDigitsCore_length_ge (b : ℕ) :
    ∀ (f n : ℕ) (l : List Char), 1 ≤ f →
      l.length + 1 ≤ (Nat.toDigitsCore b f n l).length := by
  intro f
  induction f with
  | zero => intro n l h; exact absurd h (by norm_num)
  | succ f ih =>
    intro n l _
    simp only [Nat.toDigitsCore]
    by_cases h : n / b = 0
    · simp [h]
    · rw [if_neg h]
      rcases Nat.eq_zero_or_pos f with hf | hf
      · subst hf
        simp [Nat.toDigitsCore]
      · have := ih (n / b) (Nat.digitChar (n % b) :: l) hf
        simp only [List.length_cons] at this
        omega

/-- The decimal digit list of any n ≥ 10 has at least two characters. -/
theorem toDigits_two_le_length (n : ℕ) (hn : 10 ≤ n) :
    2 ≤ (Nat.toDigits 10 n).length := by
  rw [Nat.toDigits]
  simp only [Nat.toDigitsCore]
  have h : ¬ n / 10 = 0 := by
    have : 1 ≤ n / 10 := (Nat.le_div_iff_mul_le (by norm_num)).mpr (by omega)
    omega
  rw [if_neg h]
  have := toDigitsCore_length_ge 10 n (n / 10) [Nat.digitChar (n % 10)] (by omega)
  simpa using this

/-- The decimal numeral of any n ≥ 10 is not the string "0". -/
theorem repr_ne_zero_str (n : ℕ) (hn : 10 ≤ n) : Nat.repr n ≠ "0" := by
  intro h
  have h2 : 2 ≤ (Nat.repr n).length := toDigits_two_le_length n hn
  rw [h] at h2
  exact absurd h2 (by decide)

/-- C10: for every duration > 0 and every target_bytes, the kilobit value
formatted for the encoder is at least 100, so the bitrate argument is
never the string "0k". -/
theorem bitrate_string_never_zero (d : ℚ) (t : ℕ) (hd : 0 < d) :
    100 ≤ compute_video_bitrate d t audio_bitrate_const / 1000 ∧
    video_bitrate_str (compute_video_bitrate d t audio_bitrate_const) ≠ "0k" := by
  have h := le_cvb_of_pos d t audio_bitrate_const hd
  have hq : 100 ≤ compute_video_bitrate d t audio_bitrate_const / 1000 :=
    (Nat.le_div_iff_mul_le (by norm_num)).mpr (by omega)
  refine ⟨hq, ?_⟩
  unfold video_bitrate_str
  intro hcon
  have hdata := congrArg String.data hcon
  simp only [String.data_append] at hdata
  have hdata' : (Nat.repr (compute_video_bitrate d t audio_bitrate_const / 1000)).data
      ++ [Char.ofNat 107] = [Char.ofNat 48] ++ [Char.ofNat 107] := hdata
  have hrepr : (Nat.repr (compute_video_bitrate d t audio_bitrate_const / 1000)).data
      = [Char.ofNat 48] := List.append_cancel_right hdata'
  exact repr_ne_zero_str _ (by omega) (String.ext hrepr)

/-- Witness for C10 at duration 100, target 100 MB. -/
theorem bitrate_string_never_zero_witness :
    (0 : ℚ) < 100 ∧
    (100 ≤ compute_video_bitrate 100 (target_bytes_of_mb 100) audio_bitrate_const / 1000 ∧
      video_bitrate_str (compute_video_bitrate 100 (target_bytes_of_mb 100)
        audio_bitrate_const) ≠ "0k") :=
  ⟨by norm_num, bitrate_string_never_zero 100 (target_bytes_of_mb 100) (by norm_num)⟩

end Mdviqure
